import Mathlib

/-!
Verification of the rental-price estimator app (src/app.py.py) against its
specification.  The app loads a fitted pipeline and a neighborhood catalog,
collects property attributes through bounded widgets, assembles a one-row
feature record, invokes the pipeline inside a try/except block, and renders
a currency-formatted prediction together with an echo of the inputs.

The embedding below translates each relevant piece of the script:
  * `carregar_modelo` / `carregar_bairros` — the cached file loaders with
    their exception handlers (lines 16-41);
  * the widget-declared input domains (lines 58-116) as a per-field
    validation function;
  * `input_data`, the single-record batch and `previsao` (lines 126-139);
  * the `R$ ...` currency formatting (line 145) as Python format spec ,.2f;
  * the input echo block (lines 150-161), including Python str.title().
File I/O is modelled by passing the outcome of each read (`Except LoadErr _`)
as an explicit argument; `st.stop()` is modelled as a halting outcome value.
-/

set_option maxHeartbeats 1000000

namespace QuintoAndar

/-- Outcome of a Python file/deserialization attempt: the file may be missing
(`FileNotFoundError`) or reading may raise some other exception with a
message (e.g. a corrupt pickle or invalid JSON). -/
inductive LoadErr : Type
  | fileNotFound : LoadErr
  | other : String → LoadErr
deriving DecidableEq, Repr

/-- Result of one of the loader functions: the value was returned normally,
or an error box was displayed and a fallback value returned (the script
continues), or `st.stop()` was reached after an error box (the script run
halts). -/
inductive LoadOutcome (α : Type) : Type
  | ok : α → LoadOutcome α
  | errorShown : String → α → LoadOutcome α
  | stopped : String → LoadOutcome α
deriving DecidableEq

/-- Does the load outcome halt the script run (`st.stop()` reached)? -/
def stopsLoad {α : Type} : LoadOutcome α → Bool
  | .stopped _ => true
  | _ => false

/-- A feature value in the one-row DataFrame: the numeric widgets produce
Python ints, the Bairro column holds a string. -/
inductive FeatureValue : Type
  | num : ℤ → FeatureValue
  | str : String → FeatureValue
deriving DecidableEq, Repr

/-- A feature record as handed to the pipeline: named columns in order. -/
def Record : Type := List (String × FeatureValue)

/-- The opaque fitted pipeline: maps one feature record to a numeric
prediction, or raises (schema mismatch etc.), modelled as `Except`. -/
def Pipeline : Type := Record → Except String ℚ

/-- Embedding of `carregar_modelo` (src/app.py.py lines 16-27): returns the
loaded pipeline; on `FileNotFoundError` or any other exception it shows an
error box and calls `st.stop()`. -/
def carregar_modelo (res : Except LoadErr Pipeline) : LoadOutcome Pipeline :=
  match res with
  | .ok modelo => .ok modelo
  | .error .fileNotFound =>
      .stopped "Arquivo do modelo \x27modelo_aluguel_rf.pkl\x27 não encontrado."
  | .error (.other e) => .stopped ("Erro ao carregar o modelo: " ++ e)

/-- Embedding of `carregar_bairros` (src/app.py.py lines 29-41): returns the
neighborhood list; on `FileNotFoundError` it shows an error box and calls
`st.stop()`; on any other exception it shows an error box and returns `[]`
(the script continues). -/
def carregar_bairros (res : Except LoadErr (List String)) :
    LoadOutcome (List String) :=
  match res with
  | .ok bairros => .ok bairros
  | .error .fileNotFound =>
      .stopped "Arquivo de bairros \x27bairros_unicos.json\x27 não encontrado."
  | .error (.other e) =>
      .errorShown ("Erro ao carregar a lista de bairros: " ++ e) []

/-- One raw set of form values, one per sidebar widget (lines 58-116). -/
structure RawInput : Type where
  metragem : ℤ
  quartos : ℤ
  banheiros : ℤ
  vagas : ℤ
  andar : ℤ
  mobilia : ℤ
  pet : ℤ
  bairro : String
deriving DecidableEq, Repr

/-- The input fields, one per sidebar widget. -/
inductive Field : Type
  | metragem | quartos | banheiros | vagas | andar | mobilia | pet | bairro
deriving DecidableEq, Repr

/-- The domain each widget declares for its field (src/app.py.py lines
58-116): `st.number_input` bounds for metragem ([10, 1000]) and andar
([0, 50]), `st.selectbox` option lists for the enumerated counts, and
catalog membership for bairro (the selectbox offers exactly
`bairros_unicos`). -/
def fieldOk (bairros_unicos : List String) (r : RawInput) : Field → Bool
  | .metragem => decide (10 ≤ r.metragem) && decide (r.metragem ≤ 1000)
  | .quartos => decide (r.quartos ∈ ([0, 1, 2, 3, 4, 5, 6, 7, 8] : List ℤ))
  | .banheiros => decide (r.banheiros ∈ ([0, 1, 2, 3, 4, 5, 6] : List ℤ))
  | .vagas => decide (r.vagas ∈ ([0, 1, 2, 3, 4, 5] : List ℤ))
  | .andar => decide (0 ≤ r.andar) && decide (r.andar ≤ 50)
  | .mobilia => decide (r.mobilia ∈ ([0, 1] : List ℤ))
  | .pet => decide (r.pet ∈ ([0, 1] : List ℤ))
  | .bairro => decide (r.bairro ∈ bairros_unicos)

/-- The fields in the order the widgets appear in the sidebar. -/
def fieldOrder : List Field :=
  [.metragem, .quartos, .banheiros, .vagas, .andar, .mobilia, .pet, .bairro]

/-- The numeric/enumerated fields named by the schema (everything except
the categorical bairro). -/
def numericFields : List Field :=
  [.metragem, .quartos, .banheiros, .vagas, .andar, .mobilia, .pet]

/-- Fields whose widget-declared domain the raw input violates.  Each widget
enforces its own field independently, so validation flags every offending
field. -/
def violations (bairros_unicos : List String) (r : RawInput) : List Field :=
  fieldOrder.filter (fun fl => ! fieldOk bairros_unicos r fl)

/-- Validation of a raw input against the widget-declared domains: succeeds
iff every field lies in its domain, otherwise returns the typed error naming
the offending fields. -/
def validate (bairros_unicos : List String) (r : RawInput) :
    Except (List Field) RawInput :=
  if violations bairros_unicos r = [] then .ok r
  else .error (violations bairros_unicos r)

theorem validate_ok_iff (bairros_unicos : List String) (r : RawInput) :
    validate bairros_unicos r = .ok r ↔ violations bairros_unicos r = [] := by
  unfold validate
  by_cases h : violations bairros_unicos r = [] <;> simp [h]

example : fieldOk ["aclimacao"] ⟨70, 2, 1, 1, 3, 0, 1, "aclimacao"⟩ .metragem = true := by decide
example : violations ["aclimacao"] ⟨70, 2, 1, 1, 3, 0, 1, "aclimacao"⟩ = [] := by decide
example : violations ["aclimacao"] ⟨5, 2, 1, 1, 3, 0, 1, "x"⟩ = [.metragem, .bairro] := by decide

/-- Embedding of the `input_data` DataFrame (src/app.py.py lines 126-135):
the one feature record, with exactly the column names and order written in
the source. -/
def input_data (f : RawInput) : Record :=
  [ ("Metragem", .num f.metragem)
  , ("Quartos", .num f.quartos)
  , ("Banheiros", .num f.banheiros)
  , ("Mobilia", .num f.mobilia)
  , ("Pet", .num f.pet)
  , ("Vagas", .num f.vagas)
  , ("Andar", .num f.andar)
  , ("Bairro", .str f.bairro) ]

/-- The single-record batch handed to `modelo_pipeline.predict`. -/
def input_batch (f : RawInput) : List Record := [input_data f]

/-- `modelo_pipeline.predict` on a batch: the pipeline is applied record by
record; the first raised exception propagates. -/
def batchPredict (p : Pipeline) : List Record → Except String (List ℚ)
  | [] => .ok []
  | r :: rest => (p r).bind (fun v => (batchPredict p rest).map (fun vs => v :: vs))

/-- `previsao = modelo_pipeline.predict(input_data)[0]` (line 139): predict
on the single-record batch, then the `[0]` indexing takes the first element
of the result (an empty result would raise an IndexError, also caught by
the surrounding try). -/
def previsao (p : Pipeline) (f : RawInput) : Except String ℚ :=
  (batchPredict p (input_batch f)).bind (fun vs =>
    match vs with
    | v :: _ => .ok v
    | [] => .error "IndexError: index 0 is out of bounds")

/-- Insert a comma after every third character, starting from the head
(used on the reversed digit string of the integer part). -/
def group3 : List Char → List Char
  | a :: b :: c :: d :: rest => a :: b :: c :: ',' :: group3 (d :: rest)
  | l => l

/-- Group the digits of a number string in threes with commas, as Python
format spec `,` does for the integer part. -/
def groupThousands (s : String) : String :=
  String.mk ((group3 s.data.reverse).reverse)

/-- Python round-half-even of a rational to an integer (the rounding `,.2f`
applies to the scaled value). -/
def roundHalfEven (q : ℚ) : ℤ :=
  let n : ℤ := ⌊q⌋
  if q - n < 1 / 2 then n
  else if (1 : ℚ) / 2 < q - n then n + 1
  else if n % 2 = 0 then n else n + 1

/-- Render a signed amount of cents with two fixed decimal digits and the
integer part grouped in thousands. -/
def centsToString (c : ℤ) : String :=
  (if c < 0 then "-" else "") ++ groupThousands (toString (c.natAbs / 100)) ++
    "." ++ (if c.natAbs % 100 < 10 then "0" else "") ++ toString (c.natAbs % 100)

/-- Python `format(x, ",.2f")`: round to two decimals (half to even), fixed
two decimal digits, thousands of the integer part grouped by commas. -/
def formatComma2f (q : ℚ) : String := centsToString (roundHalfEven (q * 100))

/-- `preco_formatado = f"R$ {previsao:,.2f}"` (src/app.py.py line 145). -/
def preco_formatado (v : ℚ) : String := "R$ " ++ formatComma2f v

theorem roundHalfEven_of_int (n : ℤ) : roundHalfEven (n : ℚ) = n := by
  unfold roundHalfEven
  norm_num

example : centsToString 234560 = "2,345.60" := by decide
example : formatComma2f ((2345.6 : ℚ)) = "2,345.60" := by
  have h : roundHalfEven ((2345.6 : ℚ) * 100) = 234560 := by
    have : ((2345.6 : ℚ) * 100) = ((234560 : ℤ) : ℚ) := by norm_num
    rw [this, roundHalfEven_of_int]
  rw [formatComma2f, h]
  decide

/-- Python str.title() on one character stream: a letter that follows a
non-letter is uppercased, a letter that follows a letter is lowercased,
non-letters pass through; the flag records whether the previous character
was a letter. -/
def pyTitleAux : Bool → List Char → List Char
  | _, [] => []
  | prevAlpha, c :: rest =>
      if c.isAlpha then
        (if prevAlpha then c.toLower else c.toUpper) :: pyTitleAux true rest
      else c :: pyTitleAux false rest

/-- Python `str.title()`, used on the bairro echo (line 161). -/
def pyTitle (s : String) : String := String.mk (pyTitleAux false s.data)

example : pyTitle "vila mariana" = "Vila Mariana" := by decide
example : pyTitle "aclimacao" = "Aclimacao" := by decide

/-- The floor echo `{andar if andar > 0 else \x27Térreo\x27}` (line 158). -/
def andarEcho (andar : ℤ) : String :=
  if andar > 0 then toString andar else "Térreo"

/-- The input-echo block (src/app.py.py lines 150-161): one rendered string
per `st.write` call. -/
structure Resumo : Type where
  metragem : String
  quartos : String
  banheiros : String
  vagas : String
  andar : String
  mobiliado : String
  pet : String
  bairro : String
deriving DecidableEq, Repr

/-- Embedding of the echo block: the exact f-strings of lines 153-161. -/
def resumo (f : RawInput) : Resumo where
  metragem := "**Metragem:** " ++ toString f.metragem ++ " m²"
  quartos := "**Quartos:** " ++ toString f.quartos
  banheiros := "**Banheiros:** " ++ toString f.banheiros
  vagas := "**Vagas:** " ++ toString f.vagas
  andar := "**Andar:** " ++ andarEcho f.andar
  mobiliado := "**Mobiliado:** " ++ (if f.mobilia = 1 then "Sim" else "Não")
  pet := "**Aceita Pet:** " ++ (if f.pet = 1 then "Sim" else "Não")
  bairro := "**Bairro:** " ++ pyTitle f.bairro

/-- What one click of "Estimar Valor" renders: on success the formatted
price banner and the echo of the inputs; if the try block raises, the
generic error message; `invalid` stands for a form state a widget rejects
(the value never leaves the widget). -/
inductive Outcome : Type
  | success : String → Resumo → Outcome
  | failure : String → Outcome
  | invalid : List Field → Outcome
deriving DecidableEq, Repr

/-- The try block of lines 124-172: assemble `input_data`, run the pipeline
on the single-record batch, take element 0, format and render; any exception
is caught and rendered as the generic message. -/
def runPredictionBlock (p : Pipeline) (f : RawInput) : Outcome :=
  match previsao p f with
  | .ok v => .success ("## " ++ preco_formatado v) (resumo f)
  | .error e => .failure ("Erro ao realizar a previsão: " ++ e)

/-- One full request: widget-level validation, then (only if every field is
in its domain) the prediction block.  The second component counts how many
times the pipeline's predict operation was invoked. -/
def handleRequest (p : Pipeline) (bairros_unicos : List String)
    (r : RawInput) : Outcome × ℕ :=
  match validate bairros_unicos r with
  | .error vs => (.invalid vs, 0)
  | .ok f => (runPredictionBlock p f, 1)

/-- A sequence of requests against the same cached pipeline and catalog,
processed in order (each script rerun starts fresh; the cache is read-only
shared state). -/
def processSession (p : Pipeline) (bairros_unicos : List String) :
    List RawInput → List (Outcome × ℕ)
  | [] => []
  | r :: rest =>
      handleRequest p bairros_unicos r :: processSession p bairros_unicos rest

/-- A whole script run: the halting message if a loader stopped, otherwise
the outcomes of the session's requests. -/
inductive AppRun : Type
  | halted : String → AppRun
  | ran : List (Outcome × ℕ) → AppRun

/-- Embedding of the top level of the script (lines 43-45 then 123-175):
load the model, load the bairros (each may stop the run), then serve
requests. -/
def runApp (mr : Except LoadErr Pipeline) (br : Except LoadErr (List String))
    (reqs : List RawInput) : AppRun :=
  match carregar_modelo mr with
  | .stopped msg => .halted msg
  | .errorShown _ p | .ok p =>
      match carregar_bairros br with
      | .stopped msg => .halted msg
      | .errorShown _ bs | .ok bs => .ran (processSession p bs reqs)

/-- Total number of pipeline invocations over a whole run. -/
def totalPredictCalls : AppRun → ℕ
  | .halted _ => 0
  | .ran outs => (outs.map Prod.snd).sum

/-! ### Helper lemmas -/

theorem mem_fieldOrder (fld : Field) : fld ∈ fieldOrder := by
  cases fld <;> simp [fieldOrder]

theorem validate_error_of_fieldBad (bairros_unicos : List String)
    (r : RawInput) (fld : Field)
    (hbad : fieldOk bairros_unicos r fld = false) :
    validate bairros_unicos r = .error (violations bairros_unicos r) ∧
      fld ∈ violations bairros_unicos r ∧
      ∀ p : Pipeline, (handleRequest p bairros_unicos r).2 = 0 := by
  have hviol : fld ∈ violations bairros_unicos r := by
    simp [violations, List.mem_filter, mem_fieldOrder fld, hbad]
  have hne : violations bairros_unicos r ≠ [] := List.ne_nil_of_mem hviol
  have hval : validate bairros_unicos r = .error (violations bairros_unicos r) := by
    simp [validate, hne]
  exact ⟨hval, hviol, fun p => by simp [handleRequest, hval]⟩

/-! ### The claims -/

/-- C1: if loading the model artifact raises (file missing or any other
deserialization failure), `carregar_modelo` shows an error and reaches
`st.stop()`: the whole script run halts and the pipeline is never invoked,
whatever the bairros load yields and whatever requests would have come. -/
theorem c1_model_load_failure_halts (e : LoadErr)
    (br : Except LoadErr (List String)) (reqs : List RawInput) :
    (∃ msg, runApp (.error e) br reqs = .halted msg) ∧
      totalPredictCalls (runApp (.error e) br reqs) = 0 := by
  cases e <;> simp [runApp, carregar_modelo, totalPredictCalls]

/-- C2 (counterexample): when the bairros file is missing
(`FileNotFoundError`), `carregar_bairros` does not yield an empty list and
continue — it reaches `st.stop()` and the script run halts. -/
theorem c2_missing_catalog_stops :
    carregar_bairros (.error .fileNotFound) =
        .stopped "Arquivo de bairros \x27bairros_unicos.json\x27 não encontrado." ∧
      stopsLoad (carregar_bairros (.error .fileNotFound)) = true :=
  ⟨rfl, rfl⟩

/-- C2 (amended): a missing bairros file is fatal — `carregar_bairros` shows
an error and stops the run, exactly like the model loader; only when the
catalog load fails for another reason (e.g. corrupt JSON) does it show the
error message, return the empty list, and let the run continue in degraded
mode. -/
theorem c2_catalog_error_modes (s : String) (p : Pipeline)
    (reqs : List RawInput) :
    carregar_bairros (.error (.other s)) =
        .errorShown ("Erro ao carregar a lista de bairros: " ++ s) [] ∧
      runApp (.ok p) (.error (.other s)) reqs =
        .ran (processSession p [] reqs) ∧
      runApp (.ok p) (.error .fileNotFound) reqs =
        .halted "Arquivo de bairros \x27bairros_unicos.json\x27 não encontrado." :=
  ⟨rfl, rfl, rfl⟩

/-- C3: whenever a numeric or enumerated field lies outside the domain its
widget declares (metragem outside [10, 1000], andar outside [0, 50], or a
count outside its option list), validation fails with a typed error naming
that field among the violations, and the pipeline's predict operation is
never invoked. -/
theorem c3_out_of_domain_blocks_predict (bairros_unicos : List String)
    (r : RawInput) (fld : Field) (_hnum : fld ∈ numericFields)
    (hbad : fieldOk bairros_unicos r fld = false) :
    validate bairros_unicos r = .error (violations bairros_unicos r) ∧
      fld ∈ violations bairros_unicos r ∧
      ∀ p : Pipeline, (handleRequest p bairros_unicos r).2 = 0 :=
  validate_error_of_fieldBad bairros_unicos r fld hbad

/-- C3 witness: area 5 is below the lower bound 10, so validation errors,
the violation list names metragem, and the pipeline is not invoked. -/
theorem c3_out_of_domain_blocks_predict_witness :
    validate ["aclimacao"] ⟨5, 2, 1, 1, 3, 0, 1, "aclimacao"⟩ =
        .error (violations ["aclimacao"] ⟨5, 2, 1, 1, 3, 0, 1, "aclimacao"⟩) ∧
      Field.metragem ∈ violations ["aclimacao"] ⟨5, 2, 1, 1, 3, 0, 1, "aclimacao"⟩ ∧
      (handleRequest (fun _ => .ok 0) ["aclimacao"]
        ⟨5, 2, 1, 1, 3, 0, 1, "aclimacao"⟩).2 = 0 := by
  have h := c3_out_of_domain_blocks_predict ["aclimacao"]
    ⟨5, 2, 1, 1, 3, 0, 1, "aclimacao"⟩ .metragem (by decide) (by decide)
  exact ⟨h.1, h.2.1, h.2.2 _⟩

/-- C4: catalog membership is the sole validation rule for the bairro
field — the field check succeeds exactly when the submitted value is in the
loaded catalog — and for any bairro outside the catalog validation fails,
the violation list names bairro, and the model is never reached. -/
theorem c4_bairro_membership (bairros_unicos : List String) (r : RawInput) :
    (fieldOk bairros_unicos r .bairro = true ↔ r.bairro ∈ bairros_unicos) ∧
      (r.bairro ∉ bairros_unicos →
        validate bairros_unicos r = .error (violations bairros_unicos r) ∧
          Field.bairro ∈ violations bairros_unicos r ∧
          ∀ p : Pipeline, (handleRequest p bairros_unicos r).2 = 0) := by
  constructor
  · simp [fieldOk]
  · intro h
    exact validate_error_of_fieldBad bairros_unicos r .bairro (by simp [fieldOk, h])

/-- C4 witness: "centro" is not in the one-element catalog, so validation
errors, the violation list names bairro, and the pipeline is not invoked;
and the field check evaluates to catalog membership. -/
theorem c4_bairro_membership_witness :
    (fieldOk ["aclimacao"] ⟨70, 2, 1, 1, 3, 0, 1, "centro"⟩ .bairro = true ↔
        "centro" ∈ ["aclimacao"]) ∧
      validate ["aclimacao"] ⟨70, 2, 1, 1, 3, 0, 1, "centro"⟩ =
        .error (violations ["aclimacao"] ⟨70, 2, 1, 1, 3, 0, 1, "centro"⟩) ∧
      Field.bairro ∈ violations ["aclimacao"] ⟨70, 2, 1, 1, 3, 0, 1, "centro"⟩ ∧
      (handleRequest (fun _ => .ok 0) ["aclimacao"]
        ⟨70, 2, 1, 1, 3, 0, 1, "centro"⟩).2 = 0 := by
  have h := c4_bairro_membership ["aclimacao"] ⟨70, 2, 1, 1, 3, 0, 1, "centro"⟩
  have h2 := h.2 (by decide)
  exact ⟨h.1, h2.1, h2.2.1, h2.2.2 _⟩

/-- C5: the feature record carries exactly the column names the artifact
expects, in the exact order of the source, the pipeline is called with a
single-record batch, and the single resulting element is taken as the
prediction. -/
theorem c5_feature_record_shape (f : RawInput) :
    (input_data f).map Prod.fst =
        ["Metragem", "Quartos", "Banheiros", "Mobilia", "Pet", "Vagas",
          "Andar", "Bairro"] ∧
      (input_batch f).length = 1 ∧
      ∀ (p : Pipeline) (v : ℚ), p (input_data f) = .ok v →
        previsao p f = .ok v := by
  refine ⟨rfl, rfl, ?_⟩
  intro p v h
  simp [previsao, input_batch, batchPredict, h, Except.bind, Except.map]

/-- C5 witness: with a pipeline returning 100 on the sample record, the
assembled columns are as expected and the prediction is that single
element. -/
theorem c5_feature_record_shape_witness :
    (input_data ⟨70, 2, 1, 1, 3, 0, 1, "aclimacao"⟩).map Prod.fst =
        ["Metragem", "Quartos", "Banheiros", "Mobilia", "Pet", "Vagas",
          "Andar", "Bairro"] ∧
      (input_batch ⟨70, 2, 1, 1, 3, 0, 1, "aclimacao"⟩).length = 1 ∧
      previsao (fun _ => .ok 100) ⟨70, 2, 1, 1, 3, 0, 1, "aclimacao"⟩ =
        .ok 100 := by
  have h := c5_feature_record_shape ⟨70, 2, 1, 1, 3, 0, 1, "aclimacao"⟩
  exact ⟨h.1, h.2.1, h.2.2 (fun _ => .ok 100) 100 rfl⟩

/-- C6: if the pipeline raises at prediction time, the exception is caught
by the try/except of the prediction block and rendered as the generic
failure message; no success outcome (hence no partial result) is produced. -/
theorem c6_pipeline_raise_caught (p : Pipeline) (f : RawInput) (e : String)
    (h : p (input_data f) = .error e) :
    runPredictionBlock p f = .failure ("Erro ao realizar a previsão: " ++ e) ∧
      ∀ (s : String) (res : Resumo), runPredictionBlock p f ≠ .success s res := by
  have hp : runPredictionBlock p f =
      .failure ("Erro ao realizar a previsão: " ++ e) := by
    simp [runPredictionBlock, previsao, input_batch, batchPredict, h, Except.bind, Except.map]
  exact ⟨hp, fun s res hc => by simp [hp] at hc⟩

/-- C6 witness: a pipeline raising "boom" on the sample record yields the
generic failure message. -/
theorem c6_pipeline_raise_caught_witness :
    runPredictionBlock (fun _ => .error "boom")
        ⟨70, 2, 1, 1, 3, 0, 1, "aclimacao"⟩ =
      .failure ("Erro ao realizar a previsão: " ++ "boom") :=
  (c6_pipeline_raise_caught (fun _ => .error "boom")
    ⟨70, 2, 1, 1, 3, 0, 1, "aclimacao"⟩ "boom" rfl).1

/-- C7: the prediction block passes the raw predicted number unchanged to
the currency formatter, and the formatter renders grouped thousands, two
fixed decimals, and the currency-symbol prefix: formatting 2345.6 yields
"R$ " followed by "2,345.60". -/
theorem c7_raw_value_formatting :
    (∀ (p : Pipeline) (f : RawInput) (v : ℚ), p (input_data f) = .ok v →
        runPredictionBlock p f =
          .success ("## " ++ preco_formatado v) (resumo f)) ∧
      preco_formatado ((2345.6 : ℚ)) = "R$ " ++ "2,345.60" := by
  constructor
  · intro p f v h
    simp [runPredictionBlock, previsao, input_batch, batchPredict, h, Except.bind, Except.map]
  · have h : roundHalfEven ((2345.6 : ℚ) * 100) = 234560 := by
      have h100 : ((2345.6 : ℚ) * 100) = ((234560 : ℤ) : ℚ) := by norm_num
      rw [h100, roundHalfEven_of_int]
    show "R$ " ++ formatComma2f ((2345.6 : ℚ)) = "R$ " ++ "2,345.60"
    rw [formatComma2f, h]
    decide

/-- C7 witness: a pipeline predicting 2345.6 on the sample record renders
the success banner with the exact currency string. -/
theorem c7_raw_value_formatting_witness :
    runPredictionBlock (fun _ => .ok ((2345.6 : ℚ)))
        ⟨70, 2, 1, 1, 3, 0, 1, "aclimacao"⟩ =
      .success ("## " ++ ("R$ " ++ "2,345.60"))
        (resumo ⟨70, 2, 1, 1, 3, 0, 1, "aclimacao"⟩) := by
  rw [c7_raw_value_formatting.1 (fun _ => .ok ((2345.6 : ℚ)))
    ⟨70, 2, 1, 1, 3, 0, 1, "aclimacao"⟩ ((2345.6 : ℚ)) rfl,
    c7_raw_value_formatting.2]

/-- C8: prediction is stateless and deterministic — in any session against
the same cached pipeline and catalog, the outcome at each position is the
pure function `handleRequest` of that request alone, independent of the
requests before and after it; identical requests therefore give identical
outcomes wherever they occur. -/
theorem c8_stateless_deterministic (p : Pipeline)
    (bairros_unicos : List String) (pre post : List RawInput) (r : RawInput) :
    (processSession p bairros_unicos (pre ++ r :: post)).get? pre.length =
      some (handleRequest p bairros_unicos r) := by
  induction pre with
  | nil => rfl
  | cons a t ih => simpa [processSession] using ih

/-- C9: the input echo renders each boolean field as exactly one of the two
fixed labels "Sim" and "Não", and renders the bairro in Python title case;
`resumo` and `pyTitle` are plain functions, so the rendering is pure and
deterministic. -/
theorem c9_echo_rendering (f : RawInput) :
    ((resumo f).mobiliado = "**Mobiliado:** Sim" ∨
        (resumo f).mobiliado = "**Mobiliado:** Não") ∧
      ((resumo f).pet = "**Aceita Pet:** Sim" ∨
        (resumo f).pet = "**Aceita Pet:** Não") ∧
      (resumo f).bairro = "**Bairro:** " ++ pyTitle f.bairro ∧
      pyTitle "vila mariana" = "Vila Mariana" := by
  refine ⟨?_, ?_, rfl, by decide⟩
  · by_cases h : f.mobilia = 1 <;> simp [resumo, h]
  · by_cases h : f.pet = 1 <;> simp [resumo, h]

/-- C10: the floor echo does not render the boundary value verbatim — floor
0 displays the fixed label "Térreo", and any floor at least 1 displays the
number itself. -/
theorem c10_andar_ground_floor (f : RawInput) :
    (f.andar = 0 → (resumo f).andar = "**Andar:** " ++ "Térreo") ∧
      (1 ≤ f.andar → (resumo f).andar = "**Andar:** " ++ toString f.andar) := by
  constructor
  · intro h
    simp [resumo, andarEcho, h]
  · intro h
    have hpos : (0 : ℤ) < f.andar := h
    simp [resumo, andarEcho, hpos]

/-- C10 witness: floor 0 renders "Térreo", floor 3 renders "3". -/
theorem c10_andar_ground_floor_witness :
    (resumo ⟨70, 2, 1, 1, 0, 0, 1, "aclimacao"⟩).andar =
        "**Andar:** " ++ "Térreo" ∧
      (resumo ⟨70, 2, 1, 1, 3, 0, 1, "aclimacao"⟩).andar =
        "**Andar:** " ++ toString ((3 : ℤ)) :=
  ⟨(c10_andar_ground_floor ⟨70, 2, 1, 1, 0, 0, 1, "aclimacao"⟩).1 rfl,
    (c10_andar_ground_floor ⟨70, 2, 1, 1, 3, 0, 1, "aclimacao"⟩).2 (by decide)⟩

end QuintoAndar
